import Mathlib

/-!
Shallow embedding of `src/components/modals/message-modal.tsx` from the
OutlineAdmin repository: a generic message dialog (`MessageModal`) and the
create/edit form dialog for dynamic access keys
(`DynamicAccessKeyFormModal`), with its submit handler `actualSubmit` and
its `useEffect` synchronizations.

External collaborators are modelled as parameters of the embedded
functions: `uuidv4` as the string the generator returns on this call,
`slugify` as a function `String → String`, `moment` parsing and
formatting of `YYYY-MM-DD` as functions between `String` and `JsDate`,
and the persistence actions (`createDynamicAccessKey`,
`updateDynamicAccessKey`) as an `Except String Unit` telling whether the
awaited call threw.  The TypeScript field `prefix` is called `prefixVal`
here.
-/

/-- Modelled from the spec: the `LoadBalancerAlgorithm` enumeration from
the `src/core/definitions` module, which is not part of the provided
sources.  The spec enumerates exactly three values:
random-key-per-connection, random-server-key-per-connection,
client-IP-based. -/
inductive LoadBalancerAlgorithm where
  | RandomKeyOnEachConnection
  | RandomServerKeyOnEachConnection
  | UserIpAddress
deriving DecidableEq, Repr

/-- A JavaScript `Date` value, abstracted to its epoch timestamp.  The
component never inspects dates itself; it only passes them between the
record, the form and the `moment` library. -/
structure JsDate where
  epochMillis : Int
deriving DecidableEq, Repr

/-- Modelled from the spec: the persisted dynamic-access-key record (the
Prisma `DynamicAccessKey` model, not part of the provided sources): name,
path, load-balancer algorithm, optional expiration timestamp, optional
prefix type, and an identifier. -/
structure DynamicAccessKey where
  id : Nat
  name : String
  path : String
  loadBalancerAlgorithm : LoadBalancerAlgorithm
  expiresAt : Option JsDate
  prefixVal : Option String
deriving DecidableEq, Repr

/-- The form payload (`NewDynamicAccessKeyRequest` or
`EditDynamicAccessKeyRequest`): `loadBalancerAlgorithm` is `none` while
the form never set it, `id` is `none` unless the edit path wrote it. -/
structure Payload where
  name : String
  path : String
  loadBalancerAlgorithm : Option LoadBalancerAlgorithm
  expiresAt : Option JsDate
  prefixVal : Option String
  id : Option Nat
deriving DecidableEq, Repr

/-- The payload that `actualSubmit` hands to the persistence action, after
its three mutations of `data` (message-modal.tsx lines 89-104):
`data.loadBalancerAlgorithm ??= RandomKeyOnEachConnection`; `data.path`
becomes a fresh uuid when blank and `slugify(data.path)` otherwise;
`updateData.id = dynamicAccessKeyData.id` only on the edit branch. -/
def submittedPayload (dynamicAccessKeyData : Option DynamicAccessKey)
    (uuid : String) (slug : String → String) (data : Payload) : Payload :=
  { data with
    loadBalancerAlgorithm :=
      some (data.loadBalancerAlgorithm.getD
        LoadBalancerAlgorithm.RandomKeyOnEachConnection)
    path := if data.path = "" then uuid else slug data.path
    id :=
      match dynamicAccessKeyData with
      | some dk => some dk.id
      | none => data.id }

/-- The observable steps `actualSubmit` performs, in order. -/
inductive SubmitEvent where
  | setServerError (msg : String)
  | callCreate (p : Payload)
  | callUpdate (p : Payload)
  | closeDialog
  | invokeOnSuccess
deriving DecidableEq, Repr

/-- Which persistence action the submit handler awaits:
`updateDynamicAccessKey` when editing, `createDynamicAccessKey` when
creating (message-modal.tsx lines 97-104). -/
def persistCallEvent (dynamicAccessKeyData : Option DynamicAccessKey)
    (sent : Payload) : SubmitEvent :=
  match dynamicAccessKeyData with
  | some _ => SubmitEvent.callUpdate sent
  | none => SubmitEvent.callCreate sent

/-- The trace of `actualSubmit` (message-modal.tsx lines 85-114).  It
first clears the server error, mutates the payload, awaits the
persistence action (`persist` says whether that call threw, carrying the
thrown error's string representation); on success it closes the dialog
and then invokes `onSuccess` when one was provided; on a throw the catch
block stores the error's string representation instead. -/
def actualSubmit (dynamicAccessKeyData : Option DynamicAccessKey)
    (hasOnSuccess : Bool) (uuid : String) (slug : String → String)
    (persist : Except String Unit) (data : Payload) : List SubmitEvent :=
  let sent := submittedPayload dynamicAccessKeyData uuid slug data
  match persist with
  | Except.error e =>
      [SubmitEvent.setServerError "",
        persistCallEvent dynamicAccessKeyData sent,
        SubmitEvent.setServerError e]
  | Except.ok _ =>
      [SubmitEvent.setServerError "",
        persistCallEvent dynamicAccessKeyData sent,
        SubmitEvent.closeDialog] ++
        (if hasOnSuccess then [SubmitEvent.invokeOnSuccess] else [])

/-- The `serverError` state after a trace replayed over an initial value:
each `setServerError` overwrites it. -/
def finalServerError (init : Option String) (tr : List SubmitEvent) :
    Option String :=
  tr.foldl
    (fun acc ev =>
      match ev with
      | SubmitEvent.setServerError m => some m
      | _ => acc)
    init

/-- The render guard `serverError && (...)` (message-modal.tsx line 186):
the error block is rendered exactly when `serverError` is defined and
non-empty (JavaScript truthiness). -/
def errorDisplayed (serverError : Option String) : Bool :=
  match serverError with
  | some s => s != ""
  | none => false

/-- The expiration effect (message-modal.tsx lines 116-124): the form's
`expiresAt` is `null` unless `selectedExpirationDate` is truthy, in which
case it is `moment(selectedExpirationDate, "YYYY-MM-DD").toDate()`,
modelled by `parse`. -/
def expirationEffect (parse : String → JsDate) (sel : Option String) :
    Option JsDate :=
  match sel with
  | none => none
  | some s => if s = "" then none else some (parse s)

/-- The delete button next to the date picker (message-modal.tsx line
230): its `onPress` sets `selectedExpirationDate` to `undefined`. -/
def deleteExpirationPress : Option String := none

/-- The load-balancer effect (message-modal.tsx lines 126-134): the
form's `loadBalancerAlgorithm` is the selection when one is made and
`RandomKeyOnEachConnection` otherwise. -/
def loadBalancerEffect (sel : Option LoadBalancerAlgorithm) :
    LoadBalancerAlgorithm :=
  match sel with
  | some a => a
  | none => LoadBalancerAlgorithm.RandomKeyOnEachConnection

/-- The prefix effect (message-modal.tsx lines 136-138): the form's
prefix field is set to `selectedPrefix` unchanged. -/
def prefixEffect (sel : Option String) : Option String := sel

/-- The local state of `DynamicAccessKeyFormModal`: the server error and
the three selections (`useState`, lines 79-83), plus the form-library's
managed record. -/
structure CompState where
  serverError : Option String
  selectedExpirationDate : Option String
  selectedLoadBalancer : Option LoadBalancerAlgorithm
  selectedPrefix : Option String
  formValues : Payload
deriving DecidableEq, Repr

/-- The effect on `disclosure.isOpen` (message-modal.tsx lines 140-175):
when the dialog is open it clears the server error and resets the form
and the three selections from the record (formatting `expiresAt` with
`moment(...).format("YYYY-MM-DD")`, modelled by `fmt`) or to the empty
defaults; when `isOpen` is false its body is skipped and the state is
left as it was. -/
def onIsOpenChange (fmt : JsDate → String) (isOpen : Bool)
    (dynamicAccessKeyData : Option DynamicAccessKey) (s : CompState) :
    CompState :=
  if isOpen then
    match dynamicAccessKeyData with
    | some dk =>
        { serverError := some ""
          selectedExpirationDate := dk.expiresAt.map fmt
          selectedLoadBalancer := some dk.loadBalancerAlgorithm
          selectedPrefix := dk.prefixVal
          formValues :=
            { name := dk.name
              path := dk.path
              loadBalancerAlgorithm := some dk.loadBalancerAlgorithm
              expiresAt := dk.expiresAt
              prefixVal := dk.prefixVal
              id := none } }
    | none =>
        { serverError := some ""
          selectedExpirationDate := none
          selectedLoadBalancer := none
          selectedPrefix := none
          formValues :=
            { name := ""
              path := ""
              loadBalancerAlgorithm :=
                some LoadBalancerAlgorithm.RandomKeyOnEachConnection
              expiresAt := none
              prefixVal := none
              id := none } }
  else s

/-- The attributes `MessageModal` passes to its `Modal`, and whether its
footer's Ok button is wired to `disclosure.onClose` (message-modal.tsx
lines 14-31).  `isDismissableOpt` is `none` when the prop is omitted; the
destructuring default makes it `false`. -/
structure MessageModalView where
  hideCloseButton : Bool
  isDismissable : Bool
  isKeyboardDismissDisabled : Bool
  isOpen : Bool
  okButtonClosesDisclosure : Bool
deriving DecidableEq, Repr

def MessageModal (isOpen : Bool) (isDismissableOpt : Option Bool) :
    MessageModalView :=
  let d := isDismissableOpt.getD false
  { hideCloseButton := !d
    isDismissable := d
    isKeyboardDismissDisabled := !d
    isOpen := isOpen
    okButtonClosesDisclosure := true }

/-- The dismissal mechanisms a `MessageModalView` leaves enabled: the
header close button unless hidden, keyboard dismissal unless disabled,
overlay dismissal when `isDismissable`, and the footer Ok button. -/
def closeMechanisms (v : MessageModalView) : List String :=
  (if v.hideCloseButton then [] else ["close-button"]) ++
    (if v.isKeyboardDismissDisabled then [] else ["keyboard"]) ++
      (if v.isDismissable then ["overlay"] else []) ++
        (if v.okButtonClosesDisclosure then ["ok-button"] else [])

/-- Modelled from the spec: the `AccessKeyPrefixType` enumeration from
the `src/core/definitions` module, which is not part of the provided
sources.  The component only distinguishes the `None` member; every other
member is represented by its string value. -/
inductive AccessKeyPrefixType where
  | None
  | Other (value : String)
deriving DecidableEq, Repr

/-- The string value of a prefix-type member (TypeScript string-enum
coercion, as used by `x.type.toString()`). -/
def AccessKeyPrefixType.toString : AccessKeyPrefixType → String
  | AccessKeyPrefixType.None => "none"
  | AccessKeyPrefixType.Other v => v

/-- Modelled from the spec: one row of the prefix lookup table, mapping a
prefix type to recommended ports with human-readable descriptions. -/
structure PrefixEntry where
  type : AccessKeyPrefixType
  recommendedPorts : List (Nat × String)
deriving DecidableEq, Repr

/-- Modelled from the spec: `AccessKeyPrefixes`, the static lookup table
from `src/core/outline/access-key-prefix`, which is not part of the
provided sources; representative rows including the `None` row. -/
def AccessKeyPrefixes : List PrefixEntry :=
  [{ type := AccessKeyPrefixType.None, recommendedPorts := [] },
    { type := AccessKeyPrefixType.Other "shadowsocks",
      recommendedPorts := [(443, "https"), (80, "http")] }]

/-- The dropdown key of a prefix row (message-modal.tsx line 294):
`prefix.type === AccessKeyPrefixType.None ? "" : prefix.type`. -/
def prefixItemKey (t : AccessKeyPrefixType) : String :=
  if t = AccessKeyPrefixType.None then "" else AccessKeyPrefixType.toString t

/-- The prefix dropdown's selection handler (message-modal.tsx line 291):
`setSelectedPrefix(v.currentKey!)` stores the selected item's key. -/
def onPrefixSelect (currentKey : String) : Option String := some currentKey

/-- JavaScript truthiness of a `string | null | undefined` value. -/
def optTruthy (sel : Option String) : Bool :=
  match sel with
  | some s => s != ""
  | none => false

/-- The prefix dropdown trigger's label (message-modal.tsx line 284). -/
def prefixTriggerLabel (sel : Option String) : String :=
  if optTruthy sel then "Selected prefix: " ++ sel.getD "" else "Prefix"

/-- The render guard of the recommended-ports panel (message-modal.tsx
line 301): `selectedPrefix && (...)`. -/
def rendersPortsPanel (sel : Option String) : Bool := optTruthy sel

/-- A concrete date, payload and dirty component state, used as concrete
inputs in the theorems below. -/
def sampleDate : JsDate := { epochMillis := 1700000000000 }

def samplePayload : Payload :=
  { name := "my key"
    path := "my-path"
    loadBalancerAlgorithm := some LoadBalancerAlgorithm.UserIpAddress
    expiresAt := some sampleDate
    prefixVal := some "shadowsocks"
    id := none }

def sampleDirtyState : CompState :=
  { serverError := some "Error: boom"
    selectedExpirationDate := some "2023-11-14"
    selectedLoadBalancer := some LoadBalancerAlgorithm.UserIpAddress
    selectedPrefix := some "shadowsocks"
    formValues := samplePayload }

/-- C1: the submitted payload's path is the freshly generated uuid when
the entered path is blank, and the slugified form of the entered string
otherwise. -/
theorem c1_submitted_path (dynamicAccessKeyData : Option DynamicAccessKey)
    (uuid : String) (slug : String → String) (data : Payload) :
    (submittedPayload dynamicAccessKeyData uuid slug data).path =
      if data.path = "" then uuid else slug data.path := rfl

/-- C2: the submitted payload's load-balancer algorithm is always
defined — it is the form's value when set and
`RandomKeyOnEachConnection` when not — and every value of the
enumeration is one of the three enumerated algorithms; moreover the
selection effect writes `RandomKeyOnEachConnection` when no algorithm is
selected. -/
theorem c2_algorithm_always_enumerated
    (dynamicAccessKeyData : Option DynamicAccessKey) (uuid : String)
    (slug : String → String) (data : Payload) :
    (submittedPayload dynamicAccessKeyData uuid slug data).loadBalancerAlgorithm =
      some (data.loadBalancerAlgorithm.getD
        LoadBalancerAlgorithm.RandomKeyOnEachConnection) ∧
    loadBalancerEffect none = LoadBalancerAlgorithm.RandomKeyOnEachConnection ∧
    ∀ a : LoadBalancerAlgorithm,
      a = LoadBalancerAlgorithm.RandomKeyOnEachConnection ∨
        a = LoadBalancerAlgorithm.RandomServerKeyOnEachConnection ∨
          a = LoadBalancerAlgorithm.UserIpAddress := by
  refine ⟨rfl, rfl, fun a => ?_⟩
  cases a <;> simp

/-- C3: when the persistence action throws, the trace ends with the
server error set to the thrown error's string representation (which the
error block renders exactly when that representation is non-empty), and
the dialog is not closed and `onSuccess` is not invoked. -/
theorem c3_throw_shows_error_keeps_dialog
    (dynamicAccessKeyData : Option DynamicAccessKey) (hasOnSuccess : Bool)
    (uuid : String) (slug : String → String) (e : String) (data : Payload) :
    finalServerError none
        (actualSubmit dynamicAccessKeyData hasOnSuccess uuid slug
          (Except.error e) data) = some e ∧
    errorDisplayed
        (finalServerError none
          (actualSubmit dynamicAccessKeyData hasOnSuccess uuid slug
            (Except.error e) data)) = (e != "") ∧
    SubmitEvent.closeDialog ∉
      actualSubmit dynamicAccessKeyData hasOnSuccess uuid slug
        (Except.error e) data ∧
    SubmitEvent.invokeOnSuccess ∉
      actualSubmit dynamicAccessKeyData hasOnSuccess uuid slug
        (Except.error e) data := by
  cases dynamicAccessKeyData <;>
    simp [actualSubmit, persistCallEvent, finalServerError, errorDisplayed]

/-- C4: when the persistence action completes without throwing, the trace
closes the dialog and then — exactly when an `onSuccess` callback was
provided — invokes it, in that order; nothing before that point closes
the dialog or invokes the callback. -/
theorem c4_success_closes_then_callback
    (dynamicAccessKeyData : Option DynamicAccessKey) (hasOnSuccess : Bool)
    (uuid : String) (slug : String → String) (data : Payload) :
    ∃ pre : List SubmitEvent,
      actualSubmit dynamicAccessKeyData hasOnSuccess uuid slug
          (Except.ok ()) data =
        pre ++ [SubmitEvent.closeDialog] ++
          (if hasOnSuccess then [SubmitEvent.invokeOnSuccess] else []) ∧
      SubmitEvent.closeDialog ∉ pre ∧
      SubmitEvent.invokeOnSuccess ∉ pre := by
  refine ⟨[SubmitEvent.setServerError "",
    persistCallEvent dynamicAccessKeyData
      (submittedPayload dynamicAccessKeyData uuid slug data)], ?_, ?_, ?_⟩ <;>
    cases dynamicAccessKeyData <;> simp [actualSubmit, persistCallEvent]

/-- C5: with an existing record the submitted payload's id is that
record's id and only `updateDynamicAccessKey` is called; without one the
id field is left exactly as it was in the form data and only
`createDynamicAccessKey` is called. -/
theorem c5_id_only_on_edit (hasOnSuccess : Bool) (uuid : String)
    (slug : String → String) (persist : Except String Unit) (data : Payload) :
    (∀ dk : DynamicAccessKey,
      (submittedPayload (some dk) uuid slug data).id = some dk.id ∧
      SubmitEvent.callUpdate (submittedPayload (some dk) uuid slug data) ∈
        actualSubmit (some dk) hasOnSuccess uuid slug persist data ∧
      ∀ p : Payload,
        SubmitEvent.callCreate p ∉
          actualSubmit (some dk) hasOnSuccess uuid slug persist data) ∧
    ((submittedPayload none uuid slug data).id = data.id ∧
      SubmitEvent.callCreate (submittedPayload none uuid slug data) ∈
        actualSubmit none hasOnSuccess uuid slug persist data ∧
      ∀ p : Payload,
        SubmitEvent.callUpdate p ∉
          actualSubmit none hasOnSuccess uuid slug persist data) := by
  refine ⟨fun dk => ⟨rfl, ?_, fun p => ?_⟩, rfl, ?_, fun p => ?_⟩ <;>
    cases persist <;> cases hasOnSuccess <;>
      simp [actualSubmit, persistCallEvent]

/-- C6 counterexample: the claim says every open-to-closed transition
clears all local state, but the `disclosure.isOpen` effect does nothing
when the dialog is not open: at the concrete dirty state the close
transition leaves the state unchanged, with its server error, selections
and form values still populated. -/
theorem c6_close_clears_nothing :
    onIsOpenChange (fun _ => "") false none sampleDirtyState =
        sampleDirtyState ∧
    (onIsOpenChange (fun _ => "") false none sampleDirtyState).serverError =
        some "Error: boom" ∧
    (onIsOpenChange (fun _ => "") false none sampleDirtyState).selectedPrefix =
        some "shadowsocks" := ⟨rfl, rfl, rfl⟩

/-- C6 (amended): closing the dialog leaves all local state unchanged;
instead, every open transition re-initializes the whole local state
independently of whatever state was left behind, so no stale state is
observable in a newly opened dialog. -/
theorem c6_state_reset_on_open (fmt : JsDate → String)
    (dynamicAccessKeyData : Option DynamicAccessKey) (s t : CompState) :
    onIsOpenChange fmt true dynamicAccessKeyData s =
        onIsOpenChange fmt true dynamicAccessKeyData t ∧
    onIsOpenChange fmt false dynamicAccessKeyData s = s := by
  cases dynamicAccessKeyData <;> exact ⟨rfl, rfl⟩

/-- C7: whenever the dialog opens, the server error is reset to the empty
string and the form and the three selections are initialized from the
record when editing (the expiration selection formatted with
`YYYY-MM-DD` when the record has one) and to the empty defaults when
creating. -/
theorem c7_open_initialization (fmt : JsDate → String) (s : CompState) :
    (∀ dk : DynamicAccessKey,
      onIsOpenChange fmt true (some dk) s =
        { serverError := some ""
          selectedExpirationDate := dk.expiresAt.map fmt
          selectedLoadBalancer := some dk.loadBalancerAlgorithm
          selectedPrefix := dk.prefixVal
          formValues :=
            { name := dk.name
              path := dk.path
              loadBalancerAlgorithm := some dk.loadBalancerAlgorithm
              expiresAt := dk.expiresAt
              prefixVal := dk.prefixVal
              id := none } }) ∧
    onIsOpenChange fmt true none s =
      { serverError := some ""
        selectedExpirationDate := none
        selectedLoadBalancer := none
        selectedPrefix := none
        formValues :=
          { name := ""
            path := ""
            loadBalancerAlgorithm :=
              some LoadBalancerAlgorithm.RandomKeyOnEachConnection
            expiresAt := none
            prefixVal := none
            id := none } } := ⟨fun _ => rfl, rfl⟩

/-- C8: the form's `expiresAt` is the `YYYY-MM-DD`-parse of the selected
expiration date when one is selected and `null` when the selection is
cleared (as the delete button does); the submit mutations leave
`expiresAt` untouched, so the submitted payload carries `null`
`expiresAt` exactly when no expiration date is selected. -/
theorem c8_expiration_optional (parse : String → JsDate)
    (dynamicAccessKeyData : Option DynamicAccessKey) (uuid : String)
    (slug : String → String) (data : Payload) (sel : Option String)
    (s : String) :
    expirationEffect parse none = none ∧
    expirationEffect parse deleteExpirationPress = none ∧
    expirationEffect parse (some s) =
      (if s = "" then none else some (parse s)) ∧
    (submittedPayload dynamicAccessKeyData uuid slug data).expiresAt =
      data.expiresAt ∧
    (expirationEffect parse sel = none ↔ sel = none ∨ sel = some "") := by
  refine ⟨rfl, rfl, rfl, rfl, ?_⟩
  cases sel with
  | none => simp [expirationEffect]
  | some v =>
      by_cases h : v = "" <;> simp [expirationEffect, h]

/-- C9: when the `isDismissable` prop is omitted it defaults to `false`
and the close button is hidden, keyboard dismissal is disabled and
overlay dismissal is disabled, leaving the Ok button as the only
close mechanism; passing `isDismissable = true` enables all three
dismissal mechanisms. -/
theorem c9_message_modal_dismissability (isOpen : Bool) :
    MessageModal isOpen none = MessageModal isOpen (some false) ∧
    (MessageModal isOpen none).hideCloseButton = true ∧
    (MessageModal isOpen none).isKeyboardDismissDisabled = true ∧
    (MessageModal isOpen none).isDismissable = false ∧
    (MessageModal isOpen none).okButtonClosesDisclosure = true ∧
    closeMechanisms (MessageModal isOpen none) = ["ok-button"] ∧
    (MessageModal isOpen (some true)).hideCloseButton = false ∧
    (MessageModal isOpen (some true)).isKeyboardDismissDisabled = false ∧
    (MessageModal isOpen (some true)).isDismissable = true ∧
    closeMechanisms (MessageModal isOpen (some true)) =
      ["close-button", "keyboard", "overlay", "ok-button"] :=
  ⟨rfl, rfl, rfl, rfl, rfl, rfl, rfl, rfl, rfl, rfl⟩

/-- C10: the `None` prefix row is keyed by the empty string, so selecting
it stores the empty string in `selectedPrefix` and in the form's prefix
field, which the component treats as no prefix selected: the
recommended-ports panel is not rendered and the trigger shows the
placeholder label. -/
theorem c10_none_prefix_empty_key :
    prefixItemKey AccessKeyPrefixType.None = "" ∧
    (AccessKeyPrefixes.map fun e => prefixItemKey e.type) =
      ["", "shadowsocks"] ∧
    onPrefixSelect (prefixItemKey AccessKeyPrefixType.None) = some "" ∧
    prefixEffect (some "") = some "" ∧
    rendersPortsPanel (some "") = false ∧
    prefixTriggerLabel (some "") = "Prefix" := by
  refine ⟨rfl, rfl, rfl, rfl, rfl, rfl⟩
